import Mathlib

/-!
Verification of the personal-finance dashboard (template-financeiro).

The development shallowly embeds the core logic of `app.py` and
`supabase_client.py`:

* the billing-cycle resolver `calcular_data_vencimento`,
* the loan installment expander and the submission dispatcher,
* the aggregation engine (lifetime totals, monthly pivot with running
  cumulative balance, default period selection),
* the owner-scoped `delete_transaction` operation of the store client,
* the `load_data` column schema.

Dates are `(year, month, day)` triples of naturals.  Python's
`date.replace(day=k)` raises `ValueError` when `k` is not a valid day of
that month, so it is embedded as an `Option`-valued operation; dateutil's
`relativedelta(months=n)` addition normalises the month into the year and
clamps the day to the length of the target month, and is embedded as the
total function `addMonths`.  Monetary amounts are rationals.
-/

/-- Calendar date, mirroring Python `datetime.date`: year, month (1-12),
day (1-31). -/
structure Date where
  year : Nat
  month : Nat
  day : Nat
deriving DecidableEq, Repr

/-- Gregorian leap-year test, as in Python's `calendar.isleap`. -/
def isLeap (y : Nat) : Bool :=
  y % 4 == 0 && (y % 100 != 0 || y % 400 == 0)

/-- Number of days of month `m` of year `y` (Python `calendar.monthrange`). -/
def daysInMonth (y m : Nat) : Nat :=
  if m = 2 then (if isLeap y then 29 else 28)
  else if m = 4 ∨ m = 6 ∨ m = 9 ∨ m = 11 then 30
  else 31

/-- Linear month index of a date: `year * 12 + (month - 1)`. -/
def Date.ymIndex (d : Date) : Nat :=
  d.year * 12 + (d.month - 1)

/-- Embedding of `dateutil.relativedelta(months = n)` addition: the month
is advanced by `n` (normalising into the year) and the day is clamped to
the length of the target month. -/
def addMonths (d : Date) (n : Nat) : Date :=
  let t := d.ymIndex + n
  let y := t / 12
  let m := t % 12 + 1
  ⟨y, m, min d.day (daysInMonth y m)⟩

/-- Embedding of Python `date.replace(day = k)`: defined only when `k` is
a valid day of the date's month, otherwise `none` (Python raises
`ValueError`). -/
def replaceDay (d : Date) (k : Nat) : Option Date :=
  if 1 ≤ k ∧ k ≤ daysInMonth d.year d.month then some ⟨d.year, d.month, k⟩
  else none

/-- Embedding of `calcular_data_vencimento` (app.py, lines 61-82): the
base due date is the purchase date with its day replaced by
`dia_vencimento` (`none` when that day is invalid for the purchase
month); it is advanced one month when `dia_vencimento < dia_fechamento`;
the first invoice is the base when the purchase day is at most
`dia_fechamento` and one month later otherwise; the final due date adds
`parcela_index - 1` further months. -/
def calcular_data_vencimento (data_compra : Date)
    (dia_vencimento dia_fechamento parcela_index : Nat) : Option Date :=
  match replaceDay data_compra dia_vencimento with
  | none => none
  | some b =>
    let data_vencimento_base :=
      if dia_vencimento < dia_fechamento then addMonths b 1 else b
    let primeira_fatura :=
      if data_compra.day ≤ dia_fechamento then data_vencimento_base
      else addMonths data_vencimento_base 1
    some (addMonths primeira_fatura (parcela_index - 1))

/-- Base due date as the spec describes it (§4.1 steps 1-2), as a total
function on inputs whose `due` day is valid for the purchase month. -/
def base_due_date (d : Date) (due close : Nat) : Date :=
  if due < close then addMonths ⟨d.year, d.month, due⟩ 1
  else ⟨d.year, d.month, due⟩

/-- First applicable invoice as the spec describes it (§4.1 step 3). -/
def first_invoice (d : Date) (due close : Nat) : Date :=
  if d.day ≤ close then base_due_date d due close
  else addMonths (base_due_date d due close) 1

/-- Lexicographic comparison key of a date; for days in `1..31` ordering
the keys is ordering the dates by (year, month, day). -/
def Date.key (d : Date) : Nat :=
  d.ymIndex * 32 + d.day

/-- Date order: `d₁` is no later than `d₂`. -/
def Date.le (d₁ d₂ : Date) : Prop :=
  d₁.key ≤ d₂.key

instance : DecidableRel Date.le := fun d₁ d₂ =>
  inferInstanceAs (Decidable (d₁.key ≤ d₂.key))

theorem daysInMonth_ge (y m : Nat) : 28 ≤ daysInMonth y m := by
  unfold daysInMonth
  split <;> [split <;> omega; split <;> omega]

theorem daysInMonth_le (y m : Nat) : daysInMonth y m ≤ 31 := by
  unfold daysInMonth
  split <;> [split <;> omega; split <;> omega]

theorem ymIndex_addMonths (d : Date) (n : Nat) :
    (addMonths d n).ymIndex = d.ymIndex + n := by
  unfold addMonths Date.ymIndex
  simp only
  omega

theorem day_addMonths_le (d : Date) (n : Nat) : (addMonths d n).day ≤ d.day :=
  Nat.min_le_left _ _

theorem day_addMonths_pos (d : Date) (n : Nat) (h : 1 ≤ d.day) :
    1 ≤ (addMonths d n).day := by
  have := daysInMonth_ge ((d.ymIndex + n) / 12) ((d.ymIndex + n) % 12 + 1)
  unfold addMonths
  simp only
  omega

theorem day_addMonths_le31 (d : Date) (n : Nat) : (addMonths d n).day ≤ 31 :=
  le_trans (Nat.min_le_right _ _) (daysInMonth_le _ _)

theorem day_addMonths_of_le28 (d : Date) (n : Nat) (h : d.day ≤ 28) :
    (addMonths d n).day = d.day := by
  have := daysInMonth_ge ((d.ymIndex + n) / 12) ((d.ymIndex + n) % 12 + 1)
  unfold addMonths
  simp only
  omega

theorem addMonths_addMonths (d : Date) (a b : Nat) (h : d.day ≤ 28) :
    addMonths (addMonths d a) b = addMonths d (a + b) := by
  calc addMonths (addMonths d a) b
      = ⟨((addMonths d a).ymIndex + b) / 12, ((addMonths d a).ymIndex + b) % 12 + 1,
          min (addMonths d a).day
            (daysInMonth (((addMonths d a).ymIndex + b) / 12)
              (((addMonths d a).ymIndex + b) % 12 + 1))⟩ := rfl
    _ = addMonths d (a + b) := by
        rw [ymIndex_addMonths, day_addMonths_of_le28 d a h, Nat.add_assoc]
        rfl

theorem key_lt_of_ymIndex_lt {d₁ d₂ : Date} (h : d₁.ymIndex < d₂.ymIndex)
    (h₁ : d₁.day ≤ 31) : d₁.key < d₂.key := by
  unfold Date.key
  have : d₁.ymIndex * 32 + 32 ≤ d₂.ymIndex * 32 := by
    have : (d₁.ymIndex + 1) * 32 ≤ d₂.ymIndex * 32 :=
      Nat.mul_le_mul_right 32 h
    omega
  omega

theorem first_invoice_day_le (d : Date) (due close : Nat) :
    (first_invoice d due close).day ≤ due := by
  unfold first_invoice base_due_date
  split
  · split
    · exact day_addMonths_le _ _
    · exact Nat.le_refl due
  · split
    · exact le_trans (day_addMonths_le _ _) (day_addMonths_le _ _)
    · exact day_addMonths_le _ _

theorem calcular_eq (d : Date) (due close i : Nat)
    (h1 : 1 ≤ due) (h2 : due ≤ daysInMonth d.year d.month) :
    calcular_data_vencimento d due close i =
      some (addMonths (first_invoice d due close) (i - 1)) := by
  unfold calcular_data_vencimento replaceDay first_invoice base_due_date
  rw [if_pos ⟨h1, h2⟩]

/-- C1: for every purchase date, due day and closing day that are valid
days of the months involved and every 1-based installment index `i`,
`calcular_data_vencimento` returns the purchase date with its day
replaced by the due day, advanced one month when the due day is below
the closing day, taken as the first invoice when the purchase day is at
most the closing day (closing day inclusive) and one further month later
otherwise, plus `i - 1` months; in particular purchase 2025-11-15 with
closing day 28, due day 10 and `i = 3` yields 2026-02-10. -/
theorem C1_resolve_due_date (d : Date) (due close i : Nat)
    (h1 : 1 ≤ due) (h2 : due ≤ daysInMonth d.year d.month) (hi : 1 ≤ i) :
    calcular_data_vencimento d due close i =
      some (addMonths (first_invoice d due close) (i - 1))
    ∧ calcular_data_vencimento ⟨2025, 11, 15⟩ 10 28 3 = some ⟨2026, 2, 10⟩ :=
  ⟨calcular_eq d due close i h1 h2, by decide⟩

theorem C1_resolve_due_date_witness :
    (1 ≤ 10 ∧ 10 ≤ daysInMonth 2025 11 ∧ 1 ≤ 3)
    ∧ calcular_data_vencimento ⟨2025, 11, 15⟩ 10 28 3 =
        some (addMonths (first_invoice ⟨2025, 11, 15⟩ 10 28) 2)
    ∧ calcular_data_vencimento ⟨2025, 11, 15⟩ 10 28 3 = some ⟨2026, 2, 10⟩ :=
  ⟨by decide,
   (C1_resolve_due_date ⟨2025, 11, 15⟩ 10 28 3 (by decide) (by decide)
     (by decide)).1,
   (C1_resolve_due_date ⟨2025, 11, 15⟩ 10 28 3 (by decide) (by decide)
     (by decide)).2⟩

/-- C4 counterexample: the claim says day-of-month overflow of the due
day is clamped and a date is still returned, but on purchase 2025-04-15
(April has 30 days) with due day 31 the embedded
`calcular_data_vencimento` returns no date: Python's
`date.replace(day=31)` raises `ValueError` instead of clamping. -/
theorem C4_counterexample :
    calcular_data_vencimento ⟨2025, 4, 15⟩ 31 10 1 = none := by decide

/-- C4 amended: when the due day exceeds the number of days of the
purchase month, `calcular_data_vencimento` raises (embedded: returns
`none`); the initial day replacement is not clamped — only the
relativedelta month additions clamp. -/
theorem C4_overflow_raises (d : Date) (due close i : Nat)
    (h : daysInMonth d.year d.month < due) :
    calcular_data_vencimento d due close i = none := by
  unfold calcular_data_vencimento replaceDay
  rw [if_neg (by omega)]

theorem C4_overflow_raises_witness :
    daysInMonth 2025 4 < 31
    ∧ calcular_data_vencimento ⟨2025, 4, 15⟩ 31 10 1 = none :=
  ⟨by decide, C4_overflow_raises ⟨2025, 4, 15⟩ 31 10 1 (by decide)⟩

/-- C7 counterexample: with purchase 2025-01-15, due day 31, closing day
31, installment 2 is due 2025-02-28 (clamped) and installment 3 is due
2025-03-31, which is not one relativedelta month after 2025-02-28
(that would be 2025-03-28); so consecutive installments are not always
exactly one calendar month apart. -/
theorem C7_counterexample :
    calcular_data_vencimento ⟨2025, 1, 15⟩ 31 31 2 = some ⟨2025, 2, 28⟩
    ∧ calcular_data_vencimento ⟨2025, 1, 15⟩ 31 31 3 = some ⟨2025, 3, 31⟩
    ∧ addMonths ⟨2025, 2, 28⟩ 1 ≠ (⟨2025, 3, 31⟩ : Date) := by decide

/-- C7 amended: for all valid inputs `calcular_data_vencimento` is
monotonically (strictly) increasing in the installment index, and
consecutive installments fall exactly one month apart in the year-month
grid; the due date of installment `i + 1` equals the due date of
installment `i` plus one relativedelta month whenever the due day is at
most 28 (with a larger due day the day component may be clamped
differently in different months). -/
theorem C7_monotone (d : Date) (due close i : Nat)
    (h1 : 1 ≤ due) (h2 : due ≤ daysInMonth d.year d.month) (hi : 1 ≤ i) :
    ∃ v w, calcular_data_vencimento d due close i = some v
      ∧ calcular_data_vencimento d due close (i + 1) = some w
      ∧ Date.le v w
      ∧ w.ymIndex = v.ymIndex + 1
      ∧ (due ≤ 28 → w = addMonths v 1) := by
  refine ⟨addMonths (first_invoice d due close) (i - 1),
    addMonths (first_invoice d due close) i,
    calcular_eq d due close i h1 h2, ?_, ?_, ?_, ?_⟩
  · rw [calcular_eq d due close (i + 1) h1 h2]
    simp only [Nat.add_sub_cancel]
  · exact Nat.le_of_lt (key_lt_of_ymIndex_lt
      (by rw [ymIndex_addMonths, ymIndex_addMonths]; omega)
      (day_addMonths_le31 _ _))
  · rw [ymIndex_addMonths, ymIndex_addMonths]; omega
  · intro hdue
    have hday : (first_invoice d due close).day ≤ 28 :=
      le_trans (first_invoice_day_le d due close) hdue
    rw [addMonths_addMonths _ _ _ hday]
    congr 1
    omega

theorem C7_monotone_witness :
    (1 ≤ 10 ∧ 10 ≤ daysInMonth 2025 11 ∧ 1 ≤ 1)
    ∧ ∃ v w, calcular_data_vencimento ⟨2025, 11, 15⟩ 10 28 1 = some v
      ∧ calcular_data_vencimento ⟨2025, 11, 15⟩ 10 28 2 = some w
      ∧ Date.le v w
      ∧ w.ymIndex = v.ymIndex + 1
      ∧ (10 ≤ 28 → w = addMonths v 1) :=
  ⟨by decide,
   C7_monotone ⟨2025, 11, 15⟩ 10 28 1 (by decide) (by decide) (by decide)⟩

/-- Transaction row as the aggregation engine sees it after `load_data`:
a type tag (`"receita"`, `"despesa"` or `"investimento"`), an amount and
a date (app.py derives `ano`/`mes` columns from the date). -/
structure Transacao where
  tipo : String
  valor : Rat
  data : Date
deriving DecidableEq, Repr

/-- Grouping key of the monthly pivot: `(ano, mes)` of the transaction
(app.py, lines 167-168 and 230-235). -/
def monthKey (t : Transacao) : Nat × Nat := (t.data.year, t.data.month)

/-- Calendar order on `(year, month)` keys: year ascending, then month
ascending. -/
def ymLeP (a b : Nat × Nat) : Prop :=
  a.1 < b.1 ∨ (a.1 = b.1 ∧ a.2 ≤ b.2)

instance : DecidableRel ymLeP := fun a b =>
  inferInstanceAs (Decidable (_ ∨ _))

instance : IsTotal (Nat × Nat) ymLeP :=
  ⟨fun a b => by unfold ymLeP; omega⟩

instance : IsTrans (Nat × Nat) ymLeP :=
  ⟨fun a b c h1 h2 => by unfold ymLeP at *; omega⟩

/-- Row index of the monthly pivot (`pivot_table(index=['ano','mes'],...)`):
the distinct `(ano, mes)` keys of the whole transaction set, in calendar
order. -/
def pivotKeys (txs : List Transacao) : List (Nat × Nat) :=
  List.insertionSort ymLeP ((txs.map monthKey).dedup)

/-- Pivot cell: the sum of the amounts of the transactions of one type
in one `(ano, mes)` group; `0` when the group has no such transaction
(`fillna(0)` together with the column-completion loop of app.py,
lines 235-240). -/
def somaTipoMes (txs : List Transacao) (tipo : String) (k : Nat × Nat) : Rat :=
  ((txs.filter (fun t => monthKey t = k ∧ t.tipo = tipo)).map
    Transacao.valor).sum

/-- Monthly cash-flow balance of a pivot row (`saldo_mensal`, app.py,
line 243). -/
def saldo_mensal (txs : List Transacao) (k : Nat × Nat) : Rat :=
  somaTipoMes txs "receita" k - somaTipoMes txs "despesa" k

/-- Running-sum helper mirroring pandas `cumsum` over an ordered column. -/
def cumsumFrom (acc : Rat) : List Rat → List Rat
  | [] => []
  | x :: xs => (acc + x) :: cumsumFrom (acc + x) xs

/-- Embedding of pandas `Series.cumsum` on the ordered monthly balances. -/
def cumsum (l : List Rat) : List Rat := cumsumFrom 0 l

/-- Lifetime running balance column (`saldo_acumulado_total`, app.py,
line 246): cumulative sum of the monthly balances over the calendar-
ordered pivot rows of the full, unfiltered transaction set. -/
def saldo_acumulado (txs : List Transacao) : List Rat :=
  cumsum ((pivotKeys txs).map (saldo_mensal txs))

theorem cumsumFrom_getD (l : List Rat) :
    ∀ acc i, i < l.length →
      (cumsumFrom acc l).getD i 0 = acc + (l.take (i + 1)).sum := by
  induction l with
  | nil => intro acc i h; simp at h
  | cons x xs ih =>
    intro acc i h
    cases i with
    | zero => simp [cumsumFrom]
    | succ n =>
      have hn : n < xs.length := by simpa using Nat.lt_of_succ_lt_succ h
      simp only [cumsumFrom, List.getD_cons_succ, List.take_succ_cons,
        List.sum_cons]
      rw [ih (acc + x) n hn]
      ring

/-- C2: the monthly pivot of the trend chart is built from every
transaction in history (the unfiltered set): its rows are the distinct
`(ano, mes)` keys sorted by year ascending then month ascending, every
transaction's key has a row, a type absent from a month contributes the
cell value `0` (rather than no cell), each row's monthly balance is
income minus expense of that month, and the running cumulative balance
at each row equals the sum of the monthly balances of all rows up to and
including it in this chronological order. -/
theorem C2_monthly_pivot (txs : List Transacao) :
    List.Sorted ymLeP (pivotKeys txs)
    ∧ (∀ t ∈ txs, monthKey t ∈ pivotKeys txs)
    ∧ (∀ k tipo, (∀ t ∈ txs, ¬(monthKey t = k ∧ t.tipo = tipo)) →
        somaTipoMes txs tipo k = 0)
    ∧ (∀ k, saldo_mensal txs k =
        somaTipoMes txs "receita" k - somaTipoMes txs "despesa" k)
    ∧ ∀ i, i < (pivotKeys txs).length →
        (saldo_acumulado txs).getD i 0 =
          (((pivotKeys txs).take (i + 1)).map (saldo_mensal txs)).sum := by
  refine ⟨List.sorted_insertionSort ymLeP _, ?_, ?_, fun k => rfl, ?_⟩
  · intro t ht
    have hm : monthKey t ∈ (txs.map monthKey).dedup :=
      List.mem_dedup.mpr (List.mem_map_of_mem monthKey ht)
    exact ((List.perm_insertionSort ymLeP _).mem_iff).mpr hm
  · intro k tipo h
    unfold somaTipoMes
    have hf : txs.filter (fun t => monthKey t = k ∧ t.tipo = tipo) = [] := by
      rw [List.filter_eq_nil_iff]
      intro t ht
      simpa using h t ht
    rw [hf]
    rfl
  · intro i h
    unfold saldo_acumulado cumsum
    have hl : i < ((pivotKeys txs).map (saldo_mensal txs)).length := by
      simpa using h
    rw [cumsumFrom_getD _ 0 i hl, zero_add, ← List.map_take]

/-- Small concrete ledger used to instantiate the pivot theorem. -/
def demo2 : List Transacao :=
  [⟨"receita", 100, ⟨2025, 1, 10⟩⟩, ⟨"despesa", 40, ⟨2025, 2, 5⟩⟩,
   ⟨"investimento", 5, ⟨2025, 1, 20⟩⟩]

theorem C2_monthly_pivot_witness :
    1 < (pivotKeys demo2).length
    ∧ (saldo_acumulado demo2).getD 1 0 =
        (((pivotKeys demo2).take 2).map (saldo_mensal demo2)).sum :=
  ⟨by decide, (C2_monthly_pivot demo2).2.2.2.2 1 (by decide)⟩

/-- Lifetime income total (app.py, line 191): sum of the amounts of all
`receita` rows of the unfiltered set. -/
def receitas_total (txs : List Transacao) : Rat :=
  ((txs.filter (fun t => t.tipo = "receita")).map Transacao.valor).sum

/-- Lifetime expense total (app.py, line 192). -/
def despesas_total (txs : List Transacao) : Rat :=
  ((txs.filter (fun t => t.tipo = "despesa")).map Transacao.valor).sum

/-- Lifetime investment total (app.py, line 193), tracked separately. -/
def investimentos_total (txs : List Transacao) : Rat :=
  ((txs.filter (fun t => t.tipo = "investimento")).map Transacao.valor).sum

/-- Displayed total balance (app.py, line 194). -/
def saldo_total (txs : List Transacao) : Rat :=
  receitas_total txs - despesas_total txs

/-- Signed contribution of one transaction to the total balance: income
counts positively, expense negatively, anything else (investment) not at
all. -/
def contribuicao_saldo (t : Transacao) : Rat :=
  if t.tipo = "receita" then t.valor
  else if t.tipo = "despesa" then -t.valor
  else 0

theorem receitas_total_cons (t : Transacao) (ts : List Transacao) :
    receitas_total (t :: ts) =
      (if t.tipo = "receita" then t.valor else 0) + receitas_total ts := by
  unfold receitas_total
  rw [List.filter_cons]
  by_cases h : t.tipo = "receita" <;> simp [h]

theorem despesas_total_cons (t : Transacao) (ts : List Transacao) :
    despesas_total (t :: ts) =
      (if t.tipo = "despesa" then t.valor else 0) + despesas_total ts := by
  unfold despesas_total
  rw [List.filter_cons]
  by_cases h : t.tipo = "despesa" <;> simp [h]

theorem saldo_total_cons (t : Transacao) (ts : List Transacao) :
    saldo_total (t :: ts) = contribuicao_saldo t + saldo_total ts := by
  unfold saldo_total contribuicao_saldo
  rw [receitas_total_cons, despesas_total_cons]
  by_cases h1 : t.tipo = "receita"
  · simp [h1]
    ring
  · by_cases h2 : t.tipo = "despesa" <;> simp [h1, h2] <;> ring

/-- C8: the lifetime totals are sums of amounts grouped by type over the
entire unfiltered transaction set, the displayed total balance equals
the income total minus the expense total — equivalently, each
transaction contributes its amount positively when it is income,
negatively when it is expense, and not at all when it is investment —
and the investment total is tracked as its own separate sum. -/
theorem C8_lifetime_totals (txs : List Transacao) :
    saldo_total txs = (txs.map contribuicao_saldo).sum
    ∧ saldo_total txs = receitas_total txs - despesas_total txs
    ∧ investimentos_total txs =
        ((txs.filter (fun t => t.tipo = "investimento")).map
          Transacao.valor).sum := by
  refine ⟨?_, rfl, rfl⟩
  induction txs with
  | nil => simp [saldo_total, receitas_total, despesas_total]
  | cons t ts ih =>
    rw [saldo_total_cons, List.map_cons, List.sum_cons, ih]

/-- Descending order relation used for `sorted(..., reverse=True)`. -/
def geNat (a b : Nat) : Prop := b ≤ a

instance : DecidableRel geNat := fun a b =>
  inferInstanceAs (Decidable (b ≤ a))

instance : IsTotal Nat geNat := ⟨fun a b => by unfold geNat; omega⟩

instance : IsTrans Nat geNat :=
  ⟨fun a b c h1 h2 => by unfold geNat at *; omega⟩

/-- Ascending order relation used for `sorted(...)`. -/
def leNat (a b : Nat) : Prop := a ≤ b

instance : DecidableRel leNat := fun a b =>
  inferInstanceAs (Decidable (a ≤ b))

instance : IsTotal Nat leNat := ⟨fun a b => by unfold leNat; omega⟩

instance : IsTrans Nat leNat :=
  ⟨fun a b c h1 h2 => by unfold leNat at *; omega⟩

/-- Embedding of `anos_disponiveis` (app.py, line 173): the distinct
years of the whole set, sorted descending. -/
def anos_disponiveis (txs : List Transacao) : List Nat :=
  List.insertionSort geNat ((txs.map (fun t => t.data.year)).dedup)

/-- Embedding of `meses_disponiveis` (app.py, line 174): the distinct
months of the whole set — across all years — sorted ascending. -/
def meses_disponiveis (txs : List Transacao) : List Nat :=
  List.insertionSort leNat ((txs.map (fun t => t.data.month)).dedup)

/-- Embedding of the default period selection (app.py, lines 176-177):
the current year when it appears among the available years, else the
first (largest) available year; independently, the current month when it
appears among the available months, else the first (smallest) available
month. -/
def default_period (nowY nowM : Nat) (txs : List Transacao) : Nat × Nat :=
  (if nowY ∈ anos_disponiveis txs then nowY
   else (anos_disponiveis txs).headD 0,
   if nowM ∈ meses_disponiveis txs then nowM
   else (meses_disponiveis txs).headD 0)

theorem mem_anos_disponiveis (txs : List Transacao) (y : Nat) :
    y ∈ anos_disponiveis txs ↔ y ∈ txs.map (fun t => t.data.year) := by
  unfold anos_disponiveis
  rw [(List.perm_insertionSort geNat _).mem_iff, List.mem_dedup]

theorem mem_meses_disponiveis (txs : List Transacao) (m : Nat) :
    m ∈ meses_disponiveis txs ↔ m ∈ txs.map (fun t => t.data.month) := by
  unfold meses_disponiveis
  rw [(List.perm_insertionSort leNat _).mem_iff, List.mem_dedup]

theorem headD_mem {l : List Nat} (h : l ≠ []) : l.headD 0 ∈ l := by
  cases l with
  | nil => exact absurd rfl h
  | cons a l => exact List.mem_cons_self a l

theorem headD_rel_of_sorted {r : Nat → Nat → Prop} {l : List Nat}
    (hs : List.Sorted r l) (hrefl : ∀ a, r a a) :
    ∀ x ∈ l, r (l.headD 0) x := by
  cases l with
  | nil => intro x hx; exact absurd hx (List.not_mem_nil x)
  | cons a l =>
    intro x hx
    rcases List.mem_cons.mp hx with h | h
    · rw [h]; exact hrefl a
    · exact List.rel_of_sorted_cons hs x h

theorem anos_disponiveis_ne_nil {txs : List Transacao} (h : txs ≠ []) :
    anos_disponiveis txs ≠ [] := by
  intro h0
  match txs, h with
  | t :: ts, _ =>
    have hm : t.data.year ∈ anos_disponiveis (t :: ts) :=
      (mem_anos_disponiveis _ _).mpr (by simp)
    rw [h0] at hm
    exact List.not_mem_nil _ hm

theorem meses_disponiveis_ne_nil {txs : List Transacao} (h : txs ≠ []) :
    meses_disponiveis txs ≠ [] := by
  intro h0
  match txs, h with
  | t :: ts, _ =>
    have hm : t.data.month ∈ meses_disponiveis (t :: ts) :=
      (mem_meses_disponiveis _ _).mpr (by simp)
    rw [h0] at hm
    exact List.not_mem_nil _ hm

/-- Concrete ledger refuting C5's fallback policy: one transaction in
March 2024 and one in July 2025. -/
def demo5 : List Transacao :=
  [⟨"receita", 1, ⟨2024, 3, 1⟩⟩, ⟨"despesa", 2, ⟨2025, 7, 1⟩⟩]

/-- C5 counterexample: with transactions only in 2024-03 and 2025-07 and
current date in 2026-10, the code selects year 2025 (most recent) but
month 3 — the earliest month present anywhere in the data — although the
only month present in the selected year 2025 is 7; so the default month
is not the earliest month present in the selected year, as the claim
states. -/
theorem C5_counterexample :
    default_period 2026 10 demo5 = (2025, 3)
    ∧ (demo5.filter (fun t => t.data.year = 2025)).map
        (fun t => t.data.month) = [7]
    ∧ (3 : Nat) ≠ 7 := by decide

/-- C5 amended: for a non-empty transaction set, the default year is the
current year when it occurs in the data and otherwise the most recent
year present; independently, the default month is the current month when
it occurs anywhere in the data (in any year) and otherwise the earliest
month present anywhere in the data — not the earliest month of the
selected year. -/
theorem C5_default_period (nowY nowM : Nat) (txs : List Transacao)
    (h : txs ≠ []) :
    ((nowY ∈ anos_disponiveis txs → (default_period nowY nowM txs).1 = nowY)
      ∧ (nowY ∉ anos_disponiveis txs →
          (default_period nowY nowM txs).1 ∈ anos_disponiveis txs
          ∧ ∀ y ∈ anos_disponiveis txs, y ≤ (default_period nowY nowM txs).1))
    ∧ ((nowM ∈ meses_disponiveis txs → (default_period nowY nowM txs).2 = nowM)
      ∧ (nowM ∉ meses_disponiveis txs →
          (default_period nowY nowM txs).2 ∈ meses_disponiveis txs
          ∧ ∀ m ∈ meses_disponiveis txs,
              (default_period nowY nowM txs).2 ≤ m)) := by
  unfold default_period
  constructor
  · constructor
    · intro hy
      simp [hy]
    · intro hy
      rw [if_neg hy]
      refine ⟨headD_mem (anos_disponiveis_ne_nil h), ?_⟩
      intro y hy2
      exact headD_rel_of_sorted (List.sorted_insertionSort geNat _)
        (fun a => Nat.le_refl a) y hy2
  · constructor
    · intro hm
      simp [hm]
    · intro hm
      rw [if_neg hm]
      refine ⟨headD_mem (meses_disponiveis_ne_nil h), ?_⟩
      intro m hm2
      exact headD_rel_of_sorted (List.sorted_insertionSort leNat _)
        (fun a => Nat.le_refl a) m hm2

theorem C5_default_period_witness :
    demo5 ≠ []
    ∧ (default_period 2026 10 demo5).2 ∈ meses_disponiveis demo5
    ∧ ∀ m ∈ meses_disponiveis demo5, (default_period 2026 10 demo5).2 ≤ m :=
  ⟨by decide,
   ((C5_default_period 2026 10 demo5 (by decide)).2.2 (by decide)).1,
   ((C5_default_period 2026 10 demo5 (by decide)).2.2 (by decide)).2⟩

/-- Record sent to the store when inserting a transaction; `card_id` and
`installment_group_id` are `none` where the Python dict omits the key or
passes `None`. -/
structure TransacaoDraft where
  user_id : String
  tipo : String
  valor : Rat
  descricao : String
  categoria : String
  data : Date
  card_id : Option Nat
  installment_group_id : Option String
deriving DecidableEq, Repr

/-- Placeholder draft used as the default of `List.getD`. -/
def dummyDraft : TransacaoDraft :=
  ⟨"", "", 0, "", "", ⟨0, 1, 1⟩, none, none⟩

/-- Embedding of the loan installment expander (app.py, lines 432-448):
for `i` from `0` to `n - 1` it emits a `despesa` record dated
`data + relativedelta(months=i)`, with the per-installment amount, the
description suffixed `(i+1/n)`, the shared group id and no card; the
resulting list is handed to `add_batch_transactions` as one batch. -/
def emprestimo_batch (uid : String) (valor : Rat) (descricao categoria : String)
    (data : Date) (n : Nat) (gid : String) : List TransacaoDraft :=
  (List.range n).map (fun i =>
    { user_id := uid
      tipo := "despesa"
      valor := valor
      descricao := descricao ++ " (" ++ toString (i + 1) ++ "/" ++ toString n ++ ")"
      categoria := categoria
      data := addMonths data i
      card_id := none
      installment_group_id := some gid })

theorem getD_map_range {α : Type} (f : Nat → α) (n i : Nat) (d : α)
    (h : i < n) : ((List.range n).map f).getD i d = f i := by
  rw [List.getD_eq_getElem?_getD, List.getElem?_map, List.getElem?_range h]
  rfl

/-- C3: the loan expander turns a per-installment amount `v`, a count
`n ≥ 1` and a start date `d` into exactly `n` records, where the
1-indexed record `i` is dated `d` plus `i - 1` months, keeps the amount
`v` unchanged (never divided by `n`), has its description suffixed with
`(i/n)`, shares the one group id with the whole batch and carries no
card id; the records form the single list submitted as one batch
insert. -/
theorem C3_loan_expander (uid : String) (valor : Rat)
    (descricao categoria : String) (d : Date) (n : Nat) (gid : String)
    (hn : 1 ≤ n) :
    (emprestimo_batch uid valor descricao categoria d n gid).length = n
    ∧ (∀ i, 1 ≤ i → i ≤ n →
        (emprestimo_batch uid valor descricao categoria d n gid).getD (i - 1)
            dummyDraft =
          { user_id := uid
            tipo := "despesa"
            valor := valor
            descricao := descricao ++ " (" ++ toString i ++ "/" ++ toString n ++ ")"
            categoria := categoria
            data := addMonths d (i - 1)
            card_id := none
            installment_group_id := some gid })
    ∧ ∀ t ∈ emprestimo_batch uid valor descricao categoria d n gid,
        t.installment_group_id = some gid ∧ t.card_id = none := by
  refine ⟨by simp [emprestimo_batch], ?_, ?_⟩
  · intro i h1 h2
    unfold emprestimo_batch
    rw [getD_map_range _ n (i - 1) dummyDraft (by omega)]
    have hi : i - 1 + 1 = i := by omega
    rw [hi]
  · intro t ht
    unfold emprestimo_batch at ht
    rcases List.mem_map.mp ht with ⟨i, _, rfl⟩
    exact ⟨rfl, rfl⟩

theorem C3_loan_expander_witness :
    (1 ≤ 3)
    ∧ (emprestimo_batch "u" 100 "Loan" "Empréstimo" ⟨2025, 1, 15⟩ 3 "g").length
        = 3
    ∧ (emprestimo_batch "u" 100 "Loan" "Empréstimo" ⟨2025, 1, 15⟩ 3 "g").getD 1
        dummyDraft =
      { user_id := "u"
        tipo := "despesa"
        valor := 100
        descricao := "Loan (2/3)"
        categoria := "Empréstimo"
        data := ⟨2025, 2, 15⟩
        card_id := none
        installment_group_id := some "g" } :=
  ⟨by decide,
   (C3_loan_expander "u" 100 "Loan" "Empréstimo" ⟨2025, 1, 15⟩ 3 "g"
     (by decide)).1,
   by
    have h := (C3_loan_expander "u" 100 "Loan" "Empréstimo" ⟨2025, 1, 15⟩ 3 "g"
      (by decide)).2.1 2 (by decide) (by decide)
    simpa using h⟩

/-- Credit card profile as loaded from the store (app.py, lines 148-150). -/
structure Card where
  id : Nat
  dia_vencimento : Nat
  dia_fechamento : Nat
deriving DecidableEq, Repr

/-- Options of the payment-method radio widget (app.py, line 367). -/
def payment_options : List String :=
  ["À Vista (Dinheiro/Débito)", "Cartão de Crédito", "Empréstimo"]

/-- Embedding of the credit-card installment expander (app.py, lines
455-472): installment `i` (1-based) is dated by the billing-cycle
resolver and tagged with the card id; a `ValueError` raised by the
resolver propagates, so the whole batch is `none` in that case. -/
def cartao_batch (uid : String) (valor : Rat) (descricao categoria : String)
    (data : Date) (n : Nat) (gid : String) (c : Card) :
    Option (List TransacaoDraft) :=
  (List.range n).mapM (fun j =>
    (calcular_data_vencimento data c.dia_vencimento c.dia_fechamento
        (j + 1)).map (fun dv =>
      { user_id := uid
        tipo := "despesa"
        valor := valor
        descricao := descricao ++ " (" ++ toString (j + 1) ++ "/" ++ toString n ++ ")"
        categoria := categoria
        data := dv
        card_id := some c.id
        installment_group_id := some gid }))

/-- Single-shot insert record built by `sc.add_transaction` (app.py,
lines 474-487 with supabase_client.py, lines 74-93): `card_id` is passed
as `None` and `installment_group_id` defaults to `None`. -/
def avista_draft (uid tipo : String) (valor : Rat)
    (descricao categoria : String) (data : Date) : TransacaoDraft :=
  { user_id := uid
    tipo := tipo
    valor := valor
    descricao := descricao
    categoria := categoria
    data := data
    card_id := none
    installment_group_id := none }

/-- Embedding of the submission dispatch (app.py, lines 430-487): the
chain of `if tipo == ... and meio_pagamento == ...` branches deciding
which records (if any) are sent to the store; `none` models `response`
staying `None`, i.e. nothing inserted.  The cash/debit arm compares
`meio_pagamento` against the literal string used at line 474. -/
def submit_transacao (uid tipo meio : String) (valor : Rat)
    (descricao categoria : String) (data : Date) (n : Nat) (gid : String)
    (cartao : Option Card) : Option (List TransacaoDraft) :=
  if tipo = "despesa" ∧ meio = "Empréstimo" then
    some (emprestimo_batch uid valor descricao categoria data n gid)
  else if tipo = "despesa" ∧ meio = "Cartão de Crédito" then
    match cartao with
    | none => none
    | some c => cartao_batch uid valor descricao categoria data n gid c
  else if tipo = "despesa" ∧ meio = "À Vista" then
    some [avista_draft uid tipo valor descricao categoria data]
  else if tipo = "receita" then
    some [avista_draft uid tipo valor descricao categoria data]
  else if tipo = "investimento" then
    some [avista_draft uid tipo valor descricao categoria data]
  else none

/-- C6: submitting an expense whose payment method is the radio option
`"À Vista (Dinheiro/Débito)"` inserts nothing at all: the dispatch
compares `meio_pagamento` with the bare literal `"À Vista"`, which the
radio widget never produces, so no branch fires and `response` stays
`None` — the claimed single-insert path is dead code for this input.
The claim (and spec §4.2) state that exactly one transaction is
inserted; the code's own `elif ... == "À Vista"` branch shows that this
was the intent, so this is a code bug. -/
theorem C6_cash_debit_inserts_nothing :
    payment_options.getD 0 "" = "À Vista (Dinheiro/Débito)"
    ∧ submit_transacao "u" "despesa" "À Vista (Dinheiro/Débito)" 10 "Mercado"
        "Alimentação" ⟨2025, 5, 2⟩ 1 "g" none = none
    ∧ submit_transacao "u" "despesa" "À Vista" 10 "Mercado"
        "Alimentação" ⟨2025, 5, 2⟩ 1 "g" none =
        some [avista_draft "u" "despesa" 10 "Mercado" "Alimentação"
          ⟨2025, 5, 2⟩] := by
  refine ⟨rfl, ?_, ?_⟩ <;> decide

/-- Stored transaction row, as returned by `select('*')` on the
`transactions` table: the inserted fields plus the store-assigned id. -/
structure StoredTransaction where
  id : Nat
  user_id : String
  tipo : String
  valor : Rat
  descricao : String
  categoria : String
  data : Date
  card_id : Option Nat
  installment_group_id : Option String
deriving DecidableEq, Repr

/-- Embedding of `delete_transaction` (supabase_client.py, lines
107-119): the delete matches on both `id` and `user_id`; the result is
the remaining store together with `response.data`, the list of rows the
delete removed. -/
def delete_transaction (transaction_id : Nat) (uid : String)
    (store : List StoredTransaction) :
    List StoredTransaction × List StoredTransaction :=
  (store.filter (fun t => ¬(t.id = transaction_id ∧ t.user_id = uid)),
   store.filter (fun t => t.id = transaction_id ∧ t.user_id = uid))

/-- Python truthiness of `response.data` as tested by the caller
(app.py, line 571, `if response:`): an empty list is falsy, i.e. a
failure. -/
def responseTruthy (l : List StoredTransaction) : Prop := l ≠ []

instance (l : List StoredTransaction) : Decidable (responseTruthy l) :=
  inferInstanceAs (Decidable (l ≠ []))

/-- C9: deleting a transaction id on behalf of a user it does not belong
to removes nothing — the store is unchanged, the returned data is empty,
and the caller's truthiness check on the response reports failure rather
than silent success. -/
theorem C9_delete_scoped_to_owner (transaction_id : Nat) (uid : String)
    (store : List StoredTransaction)
    (h : ∀ t ∈ store, t.id = transaction_id → t.user_id ≠ uid) :
    (delete_transaction transaction_id uid store).1 = store
    ∧ (delete_transaction transaction_id uid store).2 = []
    ∧ ¬ responseTruthy (delete_transaction transaction_id uid store).2 := by
  unfold delete_transaction responseTruthy
  have h1 : store.filter
      (fun t => ¬(t.id = transaction_id ∧ t.user_id = uid)) = store := by
    rw [List.filter_eq_self]
    intro t ht
    have := h t ht
    simp only [decide_eq_true_eq]
    tauto
  have h2 : store.filter
      (fun t => t.id = transaction_id ∧ t.user_id = uid) = [] := by
    rw [List.filter_eq_nil_iff]
    intro t ht
    have := h t ht
    simp only [decide_eq_true_eq]
    tauto
  exact ⟨h1, h2, fun hne => hne h2⟩

/-- One-row store owned by user `"alice"`, used to instantiate C9. -/
def demo9 : List StoredTransaction :=
  [⟨7, "alice", "despesa", 50, "Mercado", "Alimentação", ⟨2025, 5, 2⟩,
    none, none⟩]

theorem C9_delete_scoped_to_owner_witness :
    (∀ t ∈ demo9, t.id = 7 → t.user_id ≠ "bob")
    ∧ (delete_transaction 7 "bob" demo9).1 = demo9
    ∧ (delete_transaction 7 "bob" demo9).2 = []
    ∧ ¬ responseTruthy (delete_transaction 7 "bob" demo9).2 :=
  ⟨by decide,
   (C9_delete_scoped_to_owner 7 "bob" demo9 (by decide)).1,
   (C9_delete_scoped_to_owner 7 "bob" demo9 (by decide)).2.1,
   (C9_delete_scoped_to_owner 7 "bob" demo9 (by decide)).2.2⟩

/-- Columns of the empty frame built by `load_data` when the store
returns no transactions (app.py, line 58). -/
def empty_columns : List String :=
  ["id", "tipo", "valor", "descricao", "categoria", "data"]

/-- Modelled from the spec: the column set of the `transactions` table
returned by `select('*')` lives in the hosted store, not in the
repository; spec §3 lists the Transaction fields `id`, `type`, `amount`,
`description`, `category`, `date` and the optional `card_id` and
`installment_group_id`, all scoped by a user identifier, and every
insert path of `supabase_client.py` writes exactly these fields. -/
def stored_columns : List String :=
  ["id", "user_id", "tipo", "valor", "descricao", "categoria", "data",
   "card_id", "installment_group_id"]

/-- Embedding of the column schema produced by `load_data` (app.py,
lines 50-58): a frame over all stored columns when at least one
transaction exists, and the fixed six-column empty frame otherwise. -/
def load_data_columns (rows : List StoredTransaction) : List String :=
  if rows.isEmpty then empty_columns else stored_columns

/-- C10: when the store returns no transactions, `load_data` builds an
empty table with exactly the columns `id, tipo, valor, descricao,
categoria, data`; for a non-empty result the optional `card_id` and
`installment_group_id` columns are present, so the empty-data table has
a different schema from the non-empty one. -/
theorem C10_load_data_schema (rows : List StoredTransaction)
    (h : rows ≠ []) :
    "card_id" ∈ load_data_columns rows
    ∧ "installment_group_id" ∈ load_data_columns rows
    ∧ load_data_columns [] = empty_columns
    ∧ "card_id" ∉ load_data_columns ([] : List StoredTransaction)
    ∧ "installment_group_id" ∉ load_data_columns ([] : List StoredTransaction)
    ∧ load_data_columns rows ≠ load_data_columns ([] : List StoredTransaction) := by
  have he : rows.isEmpty = false := by
    cases rows with
    | nil => exact absurd rfl h
    | cons a l => rfl
  unfold load_data_columns
  rw [he]
  refine ⟨by decide, by decide, rfl, by decide, by decide, by decide⟩

theorem C10_load_data_schema_witness :
    demo9 ≠ []
    ∧ "card_id" ∈ load_data_columns demo9
    ∧ load_data_columns demo9 ≠ load_data_columns ([] : List StoredTransaction) :=
  ⟨by decide,
   (C10_load_data_schema demo9 (by decide)).1,
   (C10_load_data_schema demo9 (by decide)).2.2.2.2.2⟩
